import Mathlib

/-!
Verification development for the ledger-extraction pipeline
(classification → extraction → confidence scoring, with per-document
orchestration and a write-once transcription cache).

Shallow embedding conventions:
* Python floats are modelled as rationals (ℚ); every arithmetic operation
  used by the scorer (subtraction of the decimal penalty literals,
  multiplication by the weights, division by 6) is exact at these values,
  so ℚ is a faithful model of the computations involved.
* Python `int` is modelled as `Int`, strings as `String`.
* Each call to a generative service is modelled by an explicit outcome
  value: either `failure` (any exception on the service path, including
  transport errors, JSON parse errors and coercion errors inside the
  response parser, all of which the source catches with one `except`) or
  `success` carrying the typed fields of the parsed response.  Optional
  response fields are `Option`s, matching `dict.get` with a default.
* `TypedDict`s become structures; functions are total, mirroring the
  source's catch-all fallback paths.
-/

namespace LedgerExtraction

/-! ## Schema (src/schema.py) -/

/-- `PageType = Literal["Full_Balance_Sheet", "Sectional_List", "Unknown"]`. -/
inductive PageType where
  | Full_Balance_Sheet
  | Sectional_List
  | Unknown
deriving DecidableEq, Repr

/-- `PageMetadata` from src/schema.py. -/
structure PageMetadata where
  doc_id : String
  page_id : Int
  page_type : PageType
  financial_structure_overview : String
deriving DecidableEq, Repr

/-- `LedgerRow` from src/schema.py.  `transaction_type` is kept as a raw
string because the scorer re-checks membership in the three-value enum
(src/scorer.py line 50). -/
structure LedgerRow where
  doc_id : String
  page_id : Int
  row_id : Int
  description : String
  transaction_type : String
  pounds : Option Int
  shillings : Option Int
  pence : Option Int
  pence_fraction : Option String
  model_conf_description : ℚ
  model_conf_transaction_type : ℚ
  model_conf_pounds : ℚ
  model_conf_shillings : ℚ
  model_conf_pence : ℚ
  model_conf_pence_fraction : ℚ
  rule_based_confidence : ℚ
  row_confidence : ℚ
deriving DecidableEq, Repr

/-! ## Scorer (src/scorer.py) -/

/-- The characters removed by Python `str.strip()` that occur in our model
(space, tab, newline, carriage return, vertical tab, form feed).  Python
also strips some rarer Unicode space characters; the embedding covers the
ASCII whitespace set. -/
def isPySpace (c : Char) : Bool :=
  c = ' ' || c = '\t' || c = '\n' || c = '\r' || c = '\x0b' || c = '\x0c'

/-- Python `s.strip()`: remove leading and trailing whitespace. -/
def pythonStrip (s : String) : String :=
  String.mk (((s.data.dropWhile isPySpace).reverse.dropWhile isPySpace).reverse)

/-- The final clamp of the scorer: `if score < 0.0: score = 0.0 elif
score > 1.0: score = 1.0` (src/scorer.py lines 58-62 and 105-109). -/
def clamp01 (x : ℚ) : ℚ :=
  if x < 0 then 0 else if x > 1 then 1 else x

/-- `compute_rule_based_confidence` (src/scorer.py lines 7-64), transcribed
step by step: sequential penalty subtractions, clamp at the end. -/
def compute_rule_based_confidence (row : LedgerRow)
    (typical_max_pounds : Option Int) : ℚ :=
  let score : ℚ := 1.0
  -- 1) Description length check
  let description := pythonStrip row.description
  let score :=
    if description.length = 0 then score - 0.4
    else if description.length < 3 then score - 0.2
    else score
  -- 2) Numeric sanity checks
  let pounds := row.pounds
  let shillings := row.shillings
  let pence := row.pence
  -- 2a) shillings should normally be 0-19
  let score :=
    match shillings with
    | some s => if ¬ (0 ≤ s ∧ s ≤ 19) then score - 0.2 else score
    | none => score
  -- 2b) pence should normally be 0-11
  let score :=
    match pence with
    | some p => if ¬ (0 ≤ p ∧ p ≤ 11) then score - 0.2 else score
    | none => score
  -- 2c) pounds range sanity if we have a typical max
  let score :=
    match typical_max_pounds, pounds with
    | some m, some p => if p > m * 3 then score - 0.2 else score
    | _, _ => score
  -- 3) Transaction type check
  let tx_type := row.transaction_type
  let score :=
    if ¬ (tx_type = "Debit" ∨ tx_type = "Credit" ∨ tx_type = "Unknown")
    then score - 0.3 else score
  -- 4) All monetary fields absent
  let score :=
    if pounds = none ∧ shillings = none ∧ pence = none
    then score - 0.3 else score
  clamp01 score

/-- The list of the six model-reported confidences read by
`compute_row_confidence` (src/scorer.py lines 87-94). -/
def modelConfs (row : LedgerRow) : List ℚ :=
  [row.model_conf_description,
   row.model_conf_transaction_type,
   row.model_conf_pounds,
   row.model_conf_shillings,
   row.model_conf_pence,
   row.model_conf_pence_fraction]

/-- `compute_row_confidence` (src/scorer.py lines 67-111). -/
def compute_row_confidence (row : LedgerRow) (rule_weight : ℚ)
    (typical_max_pounds : Option Int) : ℚ :=
  let rule_conf := compute_rule_based_confidence row typical_max_pounds
  let model_confs := modelConfs row
  let model_conf_avg :=
    if model_confs.length > 0
    then model_confs.sum / (model_confs.length : ℚ)
    else 0.0
  let rw := max 0.0 (min 1.0 rule_weight)
  let combined := rw * rule_conf + (1.0 - rw) * model_conf_avg
  clamp01 combined

/-! ## Classifier (src/classifier.py) -/

/-- The typed fields of a successfully parsed classification response.
Each field is optional, matching `data.get(...)` with a default;
`page_type` is kept raw (any string) and validated downstream. -/
structure ClassifyResponse where
  doc_id : Option String
  page_id : Option Int
  page_type : Option String
  financial_structure_overview : Option String
deriving DecidableEq, Repr

/-- One end-to-end behavior of the classification service path:
`failure` is any exception raised inside `classify_page_with_llm`
(service error, empty content, JSON error, coercion error); `success`
carries the parsed response object. -/
inductive ClassifyOutcome where
  | failure
  | success (data : ClassifyResponse)
deriving DecidableEq, Repr

/-- Validation of `page_type_raw` against the three-value enum
(src/classifier.py lines 97-102): any other value becomes `Unknown`. -/
def normalizePageType (raw : String) : PageType :=
  if raw = "Full_Balance_Sheet" then PageType.Full_Balance_Sheet
  else if raw = "Sectional_List" then PageType.Sectional_List
  else PageType.Unknown

/-- `classify_page_with_llm` (src/classifier.py lines 46-116) given the
service behavior: `Except.error` models the raised exception. -/
def classify_page_with_llm (doc_id : String) (page_id : Int)
    (_page_text : String) (b : ClassifyOutcome) :
    Except Unit PageMetadata :=
  match b with
  | ClassifyOutcome.failure => Except.error ()
  | ClassifyOutcome.success data =>
    let page_type_raw := data.page_type.getD "Unknown"
    let page_type := normalizePageType page_type_raw
    let financial_structure_overview :=
      data.financial_structure_overview.getD ""
    Except.ok
      { doc_id := data.doc_id.getD doc_id
        page_id := data.page_id.getD page_id
        page_type := page_type
        financial_structure_overview := financial_structure_overview }

/-- `a == b` on character lists, specialised so the fallback keyword test
is self-contained. -/
def charListPrefixEq : List Char → List Char → Bool
  | [], _ => true
  | a :: as, hay =>
    match hay with
    | [] => false
    | b :: bs => a == b && charListPrefixEq as bs

/-- Substring test over character lists: does `needle` occur inside
`hay`?  Models Python `needle in hay` for strings. -/
def charListHasSub (needle : List Char) : List Char → Bool
  | [] => needle.isEmpty
  | c :: t => charListPrefixEq needle (c :: t) || charListHasSub needle t

/-- Python `needle in hay` for strings. -/
def strHasSub (hay needle : String) : Bool :=
  charListHasSub needle.data hay.data

/-- The overview text of the fallback branch that classified the page as
a balance/summary page (src/classifier.py lines 154-157). -/
def fallbackBalanceOverview : String :=
  "Fallback: classified as balance/summary page based on presence of \x27total\x27 or \x27balance\x27."

/-- The overview text of the fallback branch that classified the page as
a list page (src/classifier.py lines 160-162). -/
def fallbackListOverview : String :=
  "Fallback: classified as list page using simple keyword heuristic."

/-- Python `page_text.lower()`: lower-case every character (ASCII case
mapping, which is all the fallback's keyword test relies on). -/
def pythonLower (s : String) : String :=
  String.mk (s.data.map Char.toLower)

/-- `classify_page` (src/classifier.py lines 128-171): try the service
path, fall back to the keyword heuristic on any exception. -/
def classify_page (doc_id : String) (page_id : Int) (page_text : String)
    (b : ClassifyOutcome) : PageMetadata :=
  match classify_page_with_llm doc_id page_id page_text b with
  | Except.ok meta => meta
  | Except.error _ =>
    let normalized_text := pythonLower page_text
    if strHasSub normalized_text "total" || strHasSub normalized_text "balance"
    then
      { doc_id := doc_id
        page_id := page_id
        page_type := PageType.Full_Balance_Sheet
        financial_structure_overview := fallbackBalanceOverview }
    else
      { doc_id := doc_id
        page_id := page_id
        page_type := PageType.Sectional_List
        financial_structure_overview := fallbackListOverview }

/-! ## Extractor (src/extractor.py) -/

/-- The typed fields of one element of the `rows` array of a successfully
parsed extraction response, restricted to the data model's service
interface: monetary fields integer or absent.  The source takes these
fields verbatim from the JSON with no coercion, so a response may also
carry non-integer values there; that wider behavior is modelled
separately by `ParsedRowJson`/`extract_page_json` below, which agree
with this model on the well-typed fragment. -/
structure ParsedRow where
  doc_id : Option String
  page_id : Option Int
  row_id : Option Int
  description : Option String
  transaction_type : Option String
  pounds : Option Int
  shillings : Option Int
  pence : Option Int
  pence_fraction : Option String
  model_conf_description : Option ℚ
  model_conf_transaction_type : Option ℚ
  model_conf_pounds : Option ℚ
  model_conf_shillings : Option ℚ
  model_conf_pence : Option ℚ
  model_conf_pence_fraction : Option ℚ
deriving DecidableEq, Repr

/-- One end-to-end behavior of the extraction service path: `failure` is
any exception inside `extract_page_with_llm` (service error, empty
content, JSON error, coercion error); `success` carries the parsed
`rows` array (a response without a `rows` key parses as `success []`,
matching `data.get("rows", [])`). -/
inductive ExtractOutcome where
  | failure
  | success (rows : List ParsedRow)
deriving DecidableEq, Repr

/-- `tx_type = tx_raw if tx_raw in ("Debit", "Credit", "Unknown") else
"Unknown"` (src/extractor.py line 110). -/
def normalizeTxType (raw : String) : String :=
  if raw = "Debit" ∨ raw = "Credit" ∨ raw = "Unknown" then raw
  else "Unknown"

/-- The per-element parsing of the `rows` array
(src/extractor.py lines 102-145); `i` is the element's index. -/
def parseRow (page_meta : PageMetadata) (i : Nat) (r : ParsedRow) :
    LedgerRow :=
  { doc_id := r.doc_id.getD page_meta.doc_id
    page_id := r.page_id.getD page_meta.page_id
    row_id := r.row_id.getD (i : Int)
    description := r.description.getD ""
    transaction_type := normalizeTxType (r.transaction_type.getD "Unknown")
    pounds := r.pounds
    shillings := r.shillings
    pence := r.pence
    pence_fraction := r.pence_fraction
    model_conf_description := r.model_conf_description.getD 0.0
    model_conf_transaction_type := r.model_conf_transaction_type.getD 0.0
    model_conf_pounds := r.model_conf_pounds.getD 0.0
    model_conf_shillings := r.model_conf_shillings.getD 0.0
    model_conf_pence := r.model_conf_pence.getD 0.0
    model_conf_pence_fraction := r.model_conf_pence_fraction.getD 0.0
    rule_based_confidence := 0.0
    row_confidence := 0.0 }

/-- `extract_page_with_llm` (src/extractor.py lines 56-147) given the
service behavior: `Except.error` models the raised exception. -/
def extract_page_with_llm (page_meta : PageMetadata) (_page_text : String)
    (b : ExtractOutcome) : Except Unit (List LedgerRow) :=
  match b with
  | ExtractOutcome.failure => Except.error ()
  | ExtractOutcome.success rows_data =>
    Except.ok (rows_data.enum.map (fun p => parseRow page_meta p.1 p.2))

/-- The dummy fallback row built by `extract_page` on any extraction
failure (src/extractor.py lines 173-198). -/
def fallbackRow (page_meta : PageMetadata) : LedgerRow :=
  let base_description :=
    if page_meta.page_type = PageType.Full_Balance_Sheet
    then "Dummy balance entry inferred from summary-like page text."
    else "Dummy individual transaction inferred from list-like page text."
  { doc_id := page_meta.doc_id
    page_id := page_meta.page_id
    row_id := 0
    description := base_description
    transaction_type := "Unknown"
    pounds := none
    shillings := none
    pence := none
    pence_fraction := none
    model_conf_description := 0.3
    model_conf_transaction_type := 0.2
    model_conf_pounds := 0.0
    model_conf_shillings := 0.0
    model_conf_pence := 0.0
    model_conf_pence_fraction := 0.0
    rule_based_confidence := 0.0
    row_confidence := 0.0 }

/-- The body of the final scoring loop of `extract_page`
(src/extractor.py lines 203-207): both scores are computed on the
incoming row, then written into it. -/
def scoreRow (row : LedgerRow) : LedgerRow :=
  let rb := compute_rule_based_confidence row none
  let combined := compute_row_confidence row 0.4 none
  { row with rule_based_confidence := rb, row_confidence := combined }

/-- `extract_page` (src/extractor.py lines 150-209): try the service
path, fall back to the single dummy row on any exception, then apply
the scoring loop to every row. -/
def extract_page (page_meta : PageMetadata) (page_text : String)
    (b : ExtractOutcome) : List LedgerRow :=
  let rows :=
    match extract_page_with_llm page_meta page_text b with
    | Except.ok rows => rows
    | Except.error _ => [fallbackRow page_meta]
  rows.map scoreRow

/-! ## Verbatim-JSON extraction model (src/extractor.py, untyped fields)

The typed `ParsedRow`/`extract_page` above model the service interface
of the data model (monetary fields integer or absent), which is the
fragment all row-level properties are stated on.  The source, however,
copies `pounds`/`shillings`/`pence` (and `pence_fraction`) out of the
parsed JSON verbatim, with no coercion or validation (src/extractor.py
lines 112-115), and the scoring loop (lines 203-207) runs outside the
try/except — so a success response carrying e.g. `"shillings": "5"`
reaches `0 <= shillings <= 19` (src/scorer.py line 35) and raises
TypeError out of `extract_page`.  The model below keeps those fields
verbatim and makes the scorer partial, so that error path is
represented; `extract_page_json_int_fragment` proves it agrees with
`extract_page` on the well-typed fragment. -/

/-- A JSON value held verbatim in a monetary field.  Numbers are
modelled as rationals; arrays and objects carry no payload because the
scorer raises before inspecting one. -/
inductive JsonMoney where
  | jint (n : Int)
  | jnum (q : ℚ)
  | jstr (s : String)
  | jbool (b : Bool)
  | jarr
  | jobj
deriving DecidableEq, Repr

/-- Python numeric-comparison semantics: int, float and bool compare as
numbers (True = 1, False = 0); comparing a string, array or object with
a number raises TypeError (`none`). -/
def pyNumeric : JsonMoney → Option ℚ
  | JsonMoney.jint n => some (n : ℚ)
  | JsonMoney.jnum q => some q
  | JsonMoney.jbool b => some (if b then 1 else 0)
  | JsonMoney.jstr _ => none
  | JsonMoney.jarr => none
  | JsonMoney.jobj => none

/-- One element of a parsed `rows` array with the monetary fields and
`pence_fraction` verbatim, exactly as `r.get` leaves them.  The other
fields are behind total coercions inside the try block, so their typed
form is unchanged. -/
structure ParsedRowJson where
  doc_id : Option String
  page_id : Option Int
  row_id : Option Int
  description : Option String
  transaction_type : Option String
  pounds : Option JsonMoney
  shillings : Option JsonMoney
  pence : Option JsonMoney
  pence_fraction : Option JsonMoney
  model_conf_description : Option ℚ
  model_conf_transaction_type : Option ℚ
  model_conf_pounds : Option ℚ
  model_conf_shillings : Option ℚ
  model_conf_pence : Option ℚ
  model_conf_pence_fraction : Option ℚ
deriving DecidableEq, Repr

/-- Extraction-service behavior over verbatim rows. -/
inductive ExtractOutcomeJson where
  | failure
  | success (rows : List ParsedRowJson)
deriving DecidableEq, Repr

/-- The row dict as built at src/extractor.py lines 125-143, monetary
fields verbatim. -/
structure LedgerRowJson where
  doc_id : String
  page_id : Int
  row_id : Int
  description : String
  transaction_type : String
  pounds : Option JsonMoney
  shillings : Option JsonMoney
  pence : Option JsonMoney
  pence_fraction : Option JsonMoney
  model_conf_description : ℚ
  model_conf_transaction_type : ℚ
  model_conf_pounds : ℚ
  model_conf_shillings : ℚ
  model_conf_pence : ℚ
  model_conf_pence_fraction : ℚ
  rule_based_confidence : ℚ
  row_confidence : ℚ
deriving DecidableEq, Repr

/-- `parseRow` over verbatim rows (src/extractor.py lines 102-145). -/
def parseRowJson (page_meta : PageMetadata) (i : Nat) (r : ParsedRowJson) :
    LedgerRowJson :=
  { doc_id := r.doc_id.getD page_meta.doc_id
    page_id := r.page_id.getD page_meta.page_id
    row_id := r.row_id.getD (i : Int)
    description := r.description.getD ""
    transaction_type := normalizeTxType (r.transaction_type.getD "Unknown")
    pounds := r.pounds
    shillings := r.shillings
    pence := r.pence
    pence_fraction := r.pence_fraction
    model_conf_description := r.model_conf_description.getD 0.0
    model_conf_transaction_type := r.model_conf_transaction_type.getD 0.0
    model_conf_pounds := r.model_conf_pounds.getD 0.0
    model_conf_shillings := r.model_conf_shillings.getD 0.0
    model_conf_pence := r.model_conf_pence.getD 0.0
    model_conf_pence_fraction := r.model_conf_pence_fraction.getD 0.0
    rule_based_confidence := 0.0
    row_confidence := 0.0 }

/-- The fallback row over verbatim rows (src/extractor.py lines
173-198). -/
def fallbackRowJson (page_meta : PageMetadata) : LedgerRowJson :=
  let base_description :=
    if page_meta.page_type = PageType.Full_Balance_Sheet
    then "Dummy balance entry inferred from summary-like page text."
    else "Dummy individual transaction inferred from list-like page text."
  { doc_id := page_meta.doc_id
    page_id := page_meta.page_id
    row_id := 0
    description := base_description
    transaction_type := "Unknown"
    pounds := none
    shillings := none
    pence := none
    pence_fraction := none
    model_conf_description := 0.3
    model_conf_transaction_type := 0.2
    model_conf_pounds := 0.0
    model_conf_shillings := 0.0
    model_conf_pence := 0.0
    model_conf_pence_fraction := 0.0
    rule_based_confidence := 0.0
    row_confidence := 0.0 }

/-- `compute_rule_based_confidence` on a verbatim row: identical checks,
but a present non-numeric shillings, pence or (when a typical maximum is
given) pounds value raises TypeError at the comparison, modelled as
`Except.error`. -/
def compute_rule_based_confidence_json (row : LedgerRowJson)
    (typical_max_pounds : Option Int) : Except Unit ℚ := do
  let score : ℚ := 1.0
  -- 1) Description length check
  let description := pythonStrip row.description
  let score :=
    if description.length = 0 then score - 0.4
    else if description.length < 3 then score - 0.2
    else score
  -- 2) Numeric sanity checks
  let pounds := row.pounds
  let shillings := row.shillings
  let pence := row.pence
  -- 2a) shillings should normally be 0-19: Python dispatches the
  -- comparison on the runtime type (int, float and bool compare as
  -- numbers; anything else raises TypeError)
  let score ←
    match shillings with
    | some (JsonMoney.jint s) =>
      pure (if ¬ (0 ≤ s ∧ s ≤ 19) then score - 0.2 else score)
    | some (JsonMoney.jnum x) =>
      pure (if ¬ ((0 : ℚ) ≤ x ∧ x ≤ 19) then score - 0.2 else score)
    | some (JsonMoney.jbool b) =>
      pure (if ¬ ((0 : ℚ) ≤ (if b then 1 else 0)
               ∧ (if b then (1 : ℚ) else 0) ≤ 19) then score - 0.2 else score)
    | some _ => Except.error ()
    | none => pure score
  -- 2b) pence should normally be 0-11 (same dynamic dispatch)
  let score ←
    match pence with
    | some (JsonMoney.jint p) =>
      pure (if ¬ (0 ≤ p ∧ p ≤ 11) then score - 0.2 else score)
    | some (JsonMoney.jnum x) =>
      pure (if ¬ ((0 : ℚ) ≤ x ∧ x ≤ 11) then score - 0.2 else score)
    | some (JsonMoney.jbool b) =>
      pure (if ¬ ((0 : ℚ) ≤ (if b then 1 else 0)
               ∧ (if b then (1 : ℚ) else 0) ≤ 11) then score - 0.2 else score)
    | some _ => Except.error ()
    | none => pure score
  -- 2c) pounds range sanity if we have a typical max (same dispatch)
  let score ←
    match typical_max_pounds, pounds with
    | some m, some (JsonMoney.jint p) =>
      pure (if p > m * 3 then score - 0.2 else score)
    | some m, some (JsonMoney.jnum x) =>
      pure (if x > (m : ℚ) * 3 then score - 0.2 else score)
    | some m, some (JsonMoney.jbool b) =>
      pure (if (if b then (1 : ℚ) else 0) > (m : ℚ) * 3
            then score - 0.2 else score)
    | some _, some _ => Except.error ()
    | _, _ => pure score
  -- 3) Transaction type check
  let tx_type := row.transaction_type
  let score :=
    if ¬ (tx_type = "Debit" ∨ tx_type = "Credit" ∨ tx_type = "Unknown")
    then score - 0.3 else score
  -- 4) All monetary fields absent
  let score :=
    if pounds = none ∧ shillings = none ∧ pence = none
    then score - 0.3 else score
  pure (clamp01 score)

/-- `compute_row_confidence` on a verbatim row; its only error source is
the embedded rule-score call. -/
def compute_row_confidence_json (row : LedgerRowJson) (rule_weight : ℚ)
    (typical_max_pounds : Option Int) : Except Unit ℚ := do
  let rule_conf ← compute_rule_based_confidence_json row typical_max_pounds
  let model_confs :=
    [row.model_conf_description,
     row.model_conf_transaction_type,
     row.model_conf_pounds,
     row.model_conf_shillings,
     row.model_conf_pence,
     row.model_conf_pence_fraction]
  let model_conf_avg :=
    if model_confs.length > 0
    then model_confs.sum / (model_confs.length : ℚ)
    else 0.0
  let rw := max 0.0 (min 1.0 rule_weight)
  pure (clamp01 (rw * rule_conf + (1.0 - rw) * model_conf_avg))

/-- The scoring-loop body on a verbatim row (src/extractor.py lines
203-207): either both scores are written, or the TypeError
propagates. -/
def scoreRowJson (row : LedgerRowJson) : Except Unit LedgerRowJson := do
  let rb ← compute_rule_based_confidence_json row none
  let combined ← compute_row_confidence_json row 0.4 none
  pure { row with rule_based_confidence := rb, row_confidence := combined }

/-- `extract_page_with_llm` over verbatim rows. -/
def extract_page_with_llm_json (page_meta : PageMetadata)
    (_page_text : String) (b : ExtractOutcomeJson) :
    Except Unit (List LedgerRowJson) :=
  match b with
  | ExtractOutcomeJson.failure => Except.error ()
  | ExtractOutcomeJson.success rows_data =>
    Except.ok (rows_data.enum.map (fun p => parseRowJson page_meta p.1 p.2))

/-- The scoring loop of `extract_page` (src/extractor.py lines 203-207)
over verbatim rows: rows are scored in order and the first TypeError
aborts the whole call. -/
def scoreRows : List LedgerRowJson → Except Unit (List LedgerRowJson)
  | [] => Except.ok []
  | row :: rest =>
    match scoreRowJson row with
    | Except.error e => Except.error e
    | Except.ok r2 =>
      match scoreRows rest with
      | Except.error e => Except.error e
      | Except.ok rs2 => Except.ok (r2 :: rs2)

/-- `extract_page` over verbatim rows: the try/except turns any service
failure into the fallback row, but the scoring loop runs after the
except and its TypeError escapes. -/
def extract_page_json (page_meta : PageMetadata) (page_text : String)
    (b : ExtractOutcomeJson) : Except Unit (List LedgerRowJson) :=
  let rows :=
    match extract_page_with_llm_json page_meta page_text b with
    | Except.ok rows => rows
    | Except.error _ => [fallbackRowJson page_meta]
  scoreRows rows

/-- A scoring attempt on this row raises TypeError exactly when the
field is present with a non-numeric value. -/
def monetaryTypeError (v : Option JsonMoney) : Bool :=
  match v with
  | none => false
  | some j => (pyNumeric j).isNone

/-- Inclusion of the well-typed service interface into the verbatim
one. -/
def parsedRowToJson (r : ParsedRow) : ParsedRowJson :=
  { doc_id := r.doc_id
    page_id := r.page_id
    row_id := r.row_id
    description := r.description
    transaction_type := r.transaction_type
    pounds := r.pounds.map JsonMoney.jint
    shillings := r.shillings.map JsonMoney.jint
    pence := r.pence.map JsonMoney.jint
    pence_fraction := r.pence_fraction.map JsonMoney.jstr
    model_conf_description := r.model_conf_description
    model_conf_transaction_type := r.model_conf_transaction_type
    model_conf_pounds := r.model_conf_pounds
    model_conf_shillings := r.model_conf_shillings
    model_conf_pence := r.model_conf_pence
    model_conf_pence_fraction := r.model_conf_pence_fraction }

/-- Inclusion of well-typed ledger rows into verbatim ones. -/
def ledgerRowToJson (r : LedgerRow) : LedgerRowJson :=
  { doc_id := r.doc_id
    page_id := r.page_id
    row_id := r.row_id
    description := r.description
    transaction_type := r.transaction_type
    pounds := r.pounds.map JsonMoney.jint
    shillings := r.shillings.map JsonMoney.jint
    pence := r.pence.map JsonMoney.jint
    pence_fraction := r.pence_fraction.map JsonMoney.jstr
    model_conf_description := r.model_conf_description
    model_conf_transaction_type := r.model_conf_transaction_type
    model_conf_pounds := r.model_conf_pounds
    model_conf_shillings := r.model_conf_shillings
    model_conf_pence := r.model_conf_pence
    model_conf_pence_fraction := r.model_conf_pence_fraction
    rule_based_confidence := r.rule_based_confidence
    row_confidence := r.row_confidence }

/-- A verbatim success row carrying a string where shillings belongs:
the input on which the real `extract_page` raises TypeError. -/
def exampleStringShillingsRow : ParsedRowJson :=
  { doc_id := none, page_id := none, row_id := none,
    description := some "Rent received", transaction_type := some "Credit",
    pounds := none, shillings := some (JsonMoney.jstr "5"), pence := none,
    pence_fraction := none,
    model_conf_description := none, model_conf_transaction_type := none,
    model_conf_pounds := none, model_conf_shillings := none,
    model_conf_pence := none, model_conf_pence_fraction := none }

/-! ## Pipeline (src/pipeline.py) -/

/-- `process_single_page` (src/pipeline.py lines 10-39): classify, then
extract conditioned on the classifier's output.  The two outcome
arguments are the behaviors of the two service calls made for this
page. -/
def process_single_page (doc_id : String) (page_id : Int)
    (page_text : String) (cb : ClassifyOutcome) (eb : ExtractOutcome) :
    PageMetadata × List LedgerRow :=
  let page_meta := classify_page doc_id page_id page_text cb
  let rows := extract_page page_meta page_text eb
  (page_meta, rows)

/-- `sorted(pages.keys())` (src/pipeline.py line 68). -/
def sortedKeys (pages : List (Int × String)) : List Int :=
  List.insertionSort (fun a b => a ≤ b) (pages.map Prod.fst)

/-- `process_document` (src/pipeline.py lines 41-80): iterate the page
ids in sorted order, appending each page's metadata and extending with
its rows.  The map `pages` is modelled as an association list; the
outcome oracles give the behavior of the two service calls for each
page id. -/
def process_document (doc_id : String) (pages : List (Int × String))
    (cb : Int → ClassifyOutcome) (eb : Int → ExtractOutcome) :
    List PageMetadata × List LedgerRow :=
  let ids := sortedKeys pages
  ((ids.map (fun page_id =>
      (process_single_page doc_id page_id ((pages.lookup page_id).getD "")
        (cb page_id) (eb page_id)).1)),
   (ids.map (fun page_id =>
      (process_single_page doc_id page_id ((pages.lookup page_id).getD "")
        (cb page_id) (eb page_id)).2)).flatten)

/-! ## Batch transcription cache (src/batch.py) -/

/-- `sorted(page_images.items())` (src/batch.py line 52): the page-image
map is iterated in ascending key order (keys are unique, so comparing
keys models the lexicographic tuple sort). -/
def sortImages (page_images : List (Int × String)) : List (Int × String) :=
  List.insertionSort (fun a b => a.1 ≤ b.1) page_images

/-- The page loop of `ocr_pdf_to_pages_cached` (src/batch.py lines
52-65), threading the cache (an association list keyed by page id) and
counting transcription-service calls.  A cache hit reads the stored
text; a miss calls the service once and persists the result before the
next page is processed.  Returns (pages_text, final cache, calls). -/
def ocrLoop (ocr : String → String) :
    List (Int × String) → List (Int × String) →
    List (Int × String) × List (Int × String) × Nat
  | [], cache => ([], cache, 0)
  | (page_id, image_path) :: rest, cache =>
    match cache.lookup page_id with
    | some t =>
      let r := ocrLoop ocr rest cache
      ((page_id, t) :: r.1, r.2.1, r.2.2)
    | none =>
      let page_text := ocr image_path
      let r := ocrLoop ocr rest (cache ++ [(page_id, page_text)])
      ((page_id, page_text) :: r.1, r.2.1, r.2.2 + 1)

/-- `ocr_pdf_to_pages_cached` (src/batch.py lines 37-67): iterate the
rendered page images in sorted order with the write-once cache.  The
transcription service is modelled as a function from image path to
text; the persistent cache directory as the association list `cache`. -/
def ocr_pdf_to_pages_cached (page_images : List (Int × String))
    (cache : List (Int × String)) (ocr : String → String) :
    List (Int × String) × List (Int × String) × Nat :=
  ocrLoop ocr (sortImages page_images) cache

/-! ## Scorer lemmas -/

theorem clamp01_nonneg (x : ℚ) : 0 ≤ clamp01 x := by
  unfold clamp01; split_ifs <;> linarith

theorem clamp01_le_one (x : ℚ) : clamp01 x ≤ 1 := by
  unfold clamp01; split_ifs <;> linarith

theorem clamp01_of_bounds (x : ℚ) (h0 : 0 ≤ x) (h1 : x ≤ 1) :
    clamp01 x = x := by
  unfold clamp01; split_ifs <;> linarith

theorem ite_sub_push (c : Prop) [Decidable c] (x k : ℚ) :
    (if c then x - k else x) = x - (if c then k else 0) := by
  split_ifs <;> ring

theorem desc_sub_push (c1 c2 : Prop) [Decidable c1] [Decidable c2] (x a b : ℚ) :
    (if c1 then x - a else x - (if c2 then b else 0)) =
    x - (if c1 then a else if c2 then b else 0) := by
  split_ifs <;> ring

/-- Closed form of `compute_rule_based_confidence`: one penalty per check,
all subtracted from 1.0, clamped once at the end. -/
theorem ruleScore_closed_form (row : LedgerRow) (tmp : Option Int) :
    compute_rule_based_confidence row tmp =
    clamp01 ((1 : ℚ)
      - (if (pythonStrip row.description).length = 0 then 0.4
         else if (pythonStrip row.description).length < 3 then 0.2 else 0)
      - (match row.shillings with
         | some s => if ¬ (0 ≤ s ∧ s ≤ 19) then (0.2 : ℚ) else 0
         | none => 0)
      - (match row.pence with
         | some p => if ¬ (0 ≤ p ∧ p ≤ 11) then (0.2 : ℚ) else 0
         | none => 0)
      - (match tmp, row.pounds with
         | some m, some p => if p > m * 3 then (0.2 : ℚ) else 0
         | _, _ => 0)
      - (if ¬ (row.transaction_type = "Debit" ∨ row.transaction_type = "Credit"
               ∨ row.transaction_type = "Unknown") then (0.3 : ℚ) else 0)
      - (if row.pounds = none ∧ row.shillings = none ∧ row.pence = none
         then (0.3 : ℚ) else 0)) := by
  unfold compute_rule_based_confidence
  rcases row.shillings with _ | s <;> rcases row.pence with _ | p <;>
    rcases tmp with _ | m <;> rcases row.pounds with _ | q <;>
    simp only [ite_sub_push, desc_sub_push, sub_zero] <;>
    (congr 1 <;> ring)

/-- The spec's first worked example: empty description, all monetary
fields absent, transaction type Unknown. -/
def exampleEmptyRow : LedgerRow :=
  { doc_id := "d", page_id := 1, row_id := 0, description := "",
    transaction_type := "Unknown", pounds := none, shillings := none,
    pence := none, pence_fraction := none,
    model_conf_description := 0, model_conf_transaction_type := 0,
    model_conf_pounds := 0, model_conf_shillings := 0,
    model_conf_pence := 0, model_conf_pence_fraction := 0,
    rule_based_confidence := 0, row_confidence := 0 }

/-- The spec's second worked example: shillings 25 (out of range), every
other field valid and in range. -/
def exampleShillings25Row : LedgerRow :=
  { doc_id := "d", page_id := 1, row_id := 0, description := "Rent received",
    transaction_type := "Credit", pounds := some 2, shillings := some 25,
    pence := some 6, pence_fraction := none,
    model_conf_description := 1, model_conf_transaction_type := 1,
    model_conf_pounds := 1, model_conf_shillings := 1,
    model_conf_pence := 1, model_conf_pence_fraction := 1,
    rule_based_confidence := 0, row_confidence := 0 }

/-- C2: `compute_rule_based_confidence` starts at 1.0 and applies
additive, independent, non-resetting penalties (0.4 empty description /
0.2 short description; 0.2 shillings present and outside 0..19; 0.2
pence present and outside 0..11; 0.2 pounds above three times the given
typical maximum; 0.3 invalid transaction type; 0.3 all monetary fields
absent), clamping to the unit interval only at the end.  In particular
the empty/absent example row scores exactly 0.3 and the shillings-25
example row scores exactly 0.8. -/
theorem rule_score_additive_penalties :
    (∀ (row : LedgerRow) (tmp : Option Int),
      compute_rule_based_confidence row tmp =
      clamp01 ((1 : ℚ)
        - (if (pythonStrip row.description).length = 0 then 0.4
           else if (pythonStrip row.description).length < 3 then 0.2 else 0)
        - (match row.shillings with
           | some s => if ¬ (0 ≤ s ∧ s ≤ 19) then (0.2 : ℚ) else 0
           | none => 0)
        - (match row.pence with
           | some p => if ¬ (0 ≤ p ∧ p ≤ 11) then (0.2 : ℚ) else 0
           | none => 0)
        - (match tmp, row.pounds with
           | some m, some p => if p > m * 3 then (0.2 : ℚ) else 0
           | _, _ => 0)
        - (if ¬ (row.transaction_type = "Debit" ∨ row.transaction_type = "Credit"
                 ∨ row.transaction_type = "Unknown") then (0.3 : ℚ) else 0)
        - (if row.pounds = none ∧ row.shillings = none ∧ row.pence = none
           then (0.3 : ℚ) else 0)))
    ∧ compute_rule_based_confidence exampleEmptyRow none = 0.3
    ∧ compute_rule_based_confidence exampleShillings25Row none = 0.8 := by
  refine ⟨ruleScore_closed_form, ?_, ?_⟩
  · rw [ruleScore_closed_form]
    have h1 : pythonStrip exampleEmptyRow.description = "" := rfl
    rw [h1]
    norm_num [clamp01, exampleEmptyRow]
  · rw [ruleScore_closed_form]
    have h1 : pythonStrip exampleShillings25Row.description = "Rent received" := rfl
    rw [h1]
    have h2 : ("Rent received" : String).length = 13 := rfl
    rw [h2]
    norm_num [clamp01, exampleShillings25Row, Option.some_ne_none]

/-- C9: a description made of whitespace only is stripped to the empty
string, so it draws the 0.4 empty-description penalty and the row scores
exactly as with a truly empty description. -/
theorem rule_score_whitespace_description :
    ∀ (row : LedgerRow) (tmp : Option Int),
      (∀ c ∈ row.description.data, isPySpace c = true) →
      pythonStrip row.description = "" ∧
      compute_rule_based_confidence row tmp =
        compute_rule_based_confidence { row with description := "" } tmp := by
  intro row tmp h
  have hstrip : pythonStrip row.description = "" := by
    unfold pythonStrip
    have hd : row.description.data.dropWhile isPySpace = [] :=
      List.dropWhile_eq_nil_iff.mpr (fun x hx => h x hx)
    rw [hd]
    rfl
  refine ⟨hstrip, ?_⟩
  rw [ruleScore_closed_form, ruleScore_closed_form]
  have h2 : pythonStrip (({ row with description := "" } : LedgerRow).description) = "" := rfl
  rw [hstrip, h2]

/-- Witness for C9 at a concrete whitespace-only description. -/
theorem rule_score_whitespace_description_witness :
    pythonStrip ({ exampleEmptyRow with description := "  \t " } : LedgerRow).description = "" ∧
    compute_rule_based_confidence ({ exampleEmptyRow with description := "  \t " } : LedgerRow) none =
      compute_rule_based_confidence
        { ({ exampleEmptyRow with description := "  \t " } : LedgerRow) with description := "" } none :=
  rule_score_whitespace_description
    ({ exampleEmptyRow with description := "  \t " } : LedgerRow) none (by decide)

theorem ruleScore_bounds (row : LedgerRow) (tmp : Option Int) :
    0 ≤ compute_rule_based_confidence row tmp ∧
    compute_rule_based_confidence row tmp ≤ 1 := by
  rw [ruleScore_closed_form]
  exact ⟨clamp01_nonneg _, clamp01_le_one _⟩

/-- Closed form of `compute_row_confidence`: clamp the weight, blend the
rule score with the mean of the six model confidences, clamp the
result. -/
theorem blendScore_closed_form (row : LedgerRow) (rw : ℚ) (tmp : Option Int) :
    compute_row_confidence row rw tmp =
    clamp01 (max 0 (min 1 rw) * compute_rule_based_confidence row tmp
      + (1 - max 0 (min 1 rw)) * ((modelConfs row).sum / 6)) := by
  unfold compute_row_confidence
  norm_num [modelConfs]

/-- C3: `compute_row_confidence` is the clamped blend
`rw * rule_score + (1 - rw) * model_mean` with the weight clamped to the
unit interval; at weight 1 it equals the rule score exactly, at weight 0
it equals the exact mean of the six model confidences (whenever those
are in the unit interval, as the data model requires). -/
theorem row_confidence_blend :
    (∀ (row : LedgerRow) (rw : ℚ) (tmp : Option Int),
      compute_row_confidence row rw tmp =
      clamp01 (max 0 (min 1 rw) * compute_rule_based_confidence row tmp
        + (1 - max 0 (min 1 rw)) * ((modelConfs row).sum / 6)))
    ∧ (∀ (row : LedgerRow) (tmp : Option Int),
      compute_row_confidence row 1 tmp = compute_rule_based_confidence row tmp)
    ∧ (∀ (row : LedgerRow) (tmp : Option Int),
      (∀ c ∈ modelConfs row, 0 ≤ c ∧ c ≤ 1) →
      compute_row_confidence row 0 tmp = (modelConfs row).sum / 6) := by
  refine ⟨blendScore_closed_form, ?_, ?_⟩
  · intro row tmp
    rw [blendScore_closed_form]
    have h1 : max (0 : ℚ) (min 1 1) = 1 := by norm_num
    rw [h1]
    have h2 : (1 : ℚ) * compute_rule_based_confidence row tmp
        + (1 - 1) * ((modelConfs row).sum / 6)
        = compute_rule_based_confidence row tmp := by ring
    rw [h2]
    exact clamp01_of_bounds _ (ruleScore_bounds row tmp).1 (ruleScore_bounds row tmp).2
  · intro row tmp h
    rw [blendScore_closed_form]
    have h1 : max (0 : ℚ) (min 1 0) = 0 := by norm_num
    rw [h1]
    have h2 : (0 : ℚ) * compute_rule_based_confidence row tmp
        + (1 - 0) * ((modelConfs row).sum / 6)
        = (modelConfs row).sum / 6 := by ring
    rw [h2]
    have ha := h row.model_conf_description (by simp [modelConfs])
    have hb := h row.model_conf_transaction_type (by simp [modelConfs])
    have hc := h row.model_conf_pounds (by simp [modelConfs])
    have hd := h row.model_conf_shillings (by simp [modelConfs])
    have he := h row.model_conf_pence (by simp [modelConfs])
    have hf := h row.model_conf_pence_fraction (by simp [modelConfs])
    apply clamp01_of_bounds
    · simp only [modelConfs, List.sum_cons, List.sum_nil]
      have := ha.1; have := hb.1; have := hc.1
      have := hd.1; have := he.1; have := hf.1
      linarith
    · simp only [modelConfs, List.sum_cons, List.sum_nil]
      have := ha.2; have := hb.2; have := hc.2
      have := hd.2; have := he.2; have := hf.2
      linarith

/-- Witness for C3 at a concrete row whose model confidences are all 1. -/
theorem row_confidence_blend_witness :
    compute_row_confidence exampleShillings25Row 0 none =
      (modelConfs exampleShillings25Row).sum / 6 :=
  row_confidence_blend.2.2 exampleShillings25Row none
    (by norm_num [modelConfs, exampleShillings25Row])

/-! ## Extractor theorems -/

/-- Concrete page metadata used to instantiate the extractor theorems. -/
def examplePageMeta : PageMetadata :=
  { doc_id := "doc", page_id := 3, page_type := PageType.Sectional_List,
    financial_structure_overview := "" }

/-- C1 counterexample: a successful, well-formed extraction response
whose `rows` array is empty makes `extract_page` return the empty list,
refuting the claim that every service behavior yields at least one
row. -/
theorem extract_empty_rows_counterexample :
    extract_page examplePageMeta "page text" (ExtractOutcome.success []) = [] :=
  rfl

/-- On the well-typed fragment the verbatim rule scorer never raises and
computes exactly the typed rule score. -/
theorem crbc_json_int (r : LedgerRow) (tmp : Option Int) :
    compute_rule_based_confidence_json (ledgerRowToJson r) tmp
      = Except.ok (compute_rule_based_confidence r tmp) := by
  obtain ⟨d, pid, rid, desc, tx, po, sh, pe, pf, m1, m2, m3, m4, m5, m6, rb, rc⟩ := r
  rcases sh with _ | s <;> rcases pe with _ | p <;>
    rcases tmp with _ | m <;> rcases po with _ | q <;> rfl

/-- On the well-typed fragment the verbatim blended scorer never raises
and computes exactly the typed blended score. -/
theorem crc_json_int (r : LedgerRow) (w : ℚ) (tmp : Option Int) :
    compute_row_confidence_json (ledgerRowToJson r) w tmp
      = Except.ok (compute_row_confidence r w tmp) := by
  unfold compute_row_confidence_json
  rw [crbc_json_int]
  rfl

/-- On the well-typed fragment the verbatim scoring-loop body succeeds
and agrees with the typed one. -/
theorem scoreRowJson_int (r : LedgerRow) :
    scoreRowJson (ledgerRowToJson r) = Except.ok (ledgerRowToJson (scoreRow r)) := by
  unfold scoreRowJson
  rw [crbc_json_int]
  show compute_row_confidence_json (ledgerRowToJson r) 0.4 none >>= _ = _
  rw [crc_json_int]
  rfl

theorem parseRowJson_int (meta : PageMetadata) (i : Nat) (pr : ParsedRow) :
    parseRowJson meta i (parsedRowToJson pr)
      = ledgerRowToJson (parseRow meta i pr) := rfl

theorem fallbackRowJson_int (meta : PageMetadata) :
    fallbackRowJson meta = ledgerRowToJson (fallbackRow meta) := rfl

/-- The scoring loop succeeds on every well-typed row list. -/
theorem scoreRows_of_map : ∀ (l : List LedgerRow),
    scoreRows (l.map ledgerRowToJson)
      = Except.ok (l.map (fun r => ledgerRowToJson (scoreRow r))) := by
  intro l
  induction l with
  | nil => rfl
  | cons a as ih =>
    rw [List.map_cons, scoreRows, scoreRowJson_int, ih]
    rfl

/-- The scoring loop raises exactly when some row's scoring raises. -/
theorem scoreRows_error_iff : ∀ (l : List LedgerRowJson),
    (scoreRows l = Except.error ())
      ↔ ∃ r ∈ l, scoreRowJson r = Except.error () := by
  intro l
  induction l with
  | nil => simp [scoreRows]
  | cons a as ih =>
    rw [scoreRows]
    rcases ha : scoreRowJson a with e | v
    · cases e
      exact iff_of_true rfl ⟨a, List.mem_cons_self _ _, ha⟩
    · rcases hrest : scoreRows as with e | vs
      · cases e
        refine iff_of_true rfl ?_
        obtain ⟨r, hr, herr⟩ := ih.mp hrest
        exact ⟨r, List.mem_cons_of_mem _ hr, herr⟩
      · refine iff_of_false (fun h => Except.noConfusion h) ?_
        rintro ⟨r, hr, herr⟩
        rcases List.mem_cons.mp hr with rfl | htail
        · rw [ha] at herr
          exact Except.noConfusion herr
        · have h2 : scoreRows as = Except.error () := ih.mpr ⟨r, htail, herr⟩
          rw [hrest] at h2
          exact Except.noConfusion h2

/-- When the scoring loop succeeds it returns one row per input row. -/
theorem scoreRows_ok_length : ∀ (l bs : List LedgerRowJson),
    scoreRows l = Except.ok bs → bs.length = l.length := by
  intro l
  induction l with
  | nil =>
    intro bs h
    rw [scoreRows] at h
    cases h
    rfl
  | cons a as ih =>
    intro bs h
    rw [scoreRows] at h
    rcases ha : scoreRowJson a with e | v <;> rw [ha] at h
    · cases h
    · rcases hrest : scoreRows as with e | vs <;> rw [hrest] at h
      · cases h
      · cases h
        simp [ih vs hrest]

/-- Scoring a verbatim row raises TypeError exactly when its shillings
or pence field is present with a non-numeric value (pounds is only
compared when a typical maximum is supplied, which the extraction call
never does). -/
theorem scoreRowJson_error_iff (r : LedgerRowJson) :
    (scoreRowJson r = Except.error ())
      ↔ (monetaryTypeError r.shillings || monetaryTypeError r.pence) = true := by
  obtain ⟨d, pid, rid, desc, tx, po, sh, pe, pf, m1, m2, m3, m4, m5, m6, rb, rc⟩ := r
  rcases sh with _ | (n | x | s | bb | _ | _) <;>
    rcases pe with _ | (n2 | x2 | s2 | bb2 | _ | _) <;>
    first
      | exact iff_of_true rfl (by simp [monetaryTypeError, pyNumeric])
      | exact iff_of_false (fun h => Except.noConfusion h)
          (by simp [monetaryTypeError, pyNumeric])

/-- C1 (amended): on any service failure `extract_page` returns exactly
the single scored fallback row, and on a success whose monetary fields
are all integer-or-absent it returns, without raising, one scored row
per response row — in particular it agrees with the typed model there,
and its result is empty exactly when the service succeeds with an empty
`rows` array.  It is not total: a success row carrying a non-numeric
shillings or pence value (e.g. the string "5") makes the scoring loop —
which runs outside the try/except — raise TypeError out of
`extract_page`, characterized exactly below and witnessed at a concrete
response. -/
theorem extract_page_raise_and_fallback :
    (∀ (meta : PageMetadata) (text : String),
      extract_page_json meta text ExtractOutcomeJson.failure
        = Except.ok [ledgerRowToJson (scoreRow (fallbackRow meta))]) ∧
    (∀ (meta : PageMetadata) (text : String) (rs : List ParsedRow),
      extract_page_json meta text
          (ExtractOutcomeJson.success (rs.map parsedRowToJson))
        = Except.ok ((extract_page meta text (ExtractOutcome.success rs)).map
            ledgerRowToJson)) ∧
    (∀ (meta : PageMetadata) (text : String) (rsj : List ParsedRowJson),
      (extract_page_json meta text (ExtractOutcomeJson.success rsj)
          = Except.error ()
        ↔ ∃ pr ∈ rsj,
            (monetaryTypeError pr.shillings || monetaryTypeError pr.pence)
              = true)) ∧
    (∀ (meta : PageMetadata) (text : String) (b : ExtractOutcomeJson)
      (rows : List LedgerRowJson),
      extract_page_json meta text b = Except.ok rows →
      (rows = [] ↔ b = ExtractOutcomeJson.success [])) ∧
    extract_page_json examplePageMeta "page text"
      (ExtractOutcomeJson.success [exampleStringShillingsRow])
      = Except.error () := by
  have hfail : ∀ (meta : PageMetadata) (text : String),
      extract_page_json meta text ExtractOutcomeJson.failure
        = Except.ok [ledgerRowToJson (scoreRow (fallbackRow meta))] :=
    fun meta text => scoreRows_of_map [fallbackRow meta]
  refine ⟨hfail, ?_, ?_, ?_, rfl⟩
  · intro meta text rs
    show scoreRows ((rs.map parsedRowToJson).enum.map
          (fun p => parseRowJson meta p.1 p.2))
        = Except.ok (((rs.enum.map (fun p => parseRow meta p.1 p.2)).map
            scoreRow).map ledgerRowToJson)
    rw [List.enum_map, List.map_map]
    have hfun : ((fun p => parseRowJson meta p.1 p.2)
          ∘ (Prod.map id parsedRowToJson))
        = (fun p : ℕ × ParsedRow => ledgerRowToJson (parseRow meta p.1 p.2)) :=
      funext (fun p => parseRowJson_int meta p.1 p.2)
    rw [hfun]
    have h2 : rs.enum.map (fun p => ledgerRowToJson (parseRow meta p.1 p.2))
        = (rs.enum.map (fun p => parseRow meta p.1 p.2)).map ledgerRowToJson := by
      rw [List.map_map]
      rfl
    rw [h2, scoreRows_of_map]
    simp only [List.map_map]
    rfl
  · intro meta text rsj
    rw [show extract_page_json meta text (ExtractOutcomeJson.success rsj)
        = scoreRows (rsj.enum.map (fun p => parseRowJson meta p.1 p.2)) from rfl]
    rw [scoreRows_error_iff]
    constructor
    · rintro ⟨r, hr, herr⟩
      rw [List.mem_map] at hr
      obtain ⟨p, hp, rfl⟩ := hr
      refine ⟨p.2, ?_, ?_⟩
      · have hm : p.2 ∈ rsj.enum.map Prod.snd := List.mem_map_of_mem Prod.snd hp
        rwa [List.enum_map_snd] at hm
      · rw [scoreRowJson_error_iff] at herr
        exact herr
    · rintro ⟨pr, hpr, hbad⟩
      have hmem : pr ∈ rsj.enum.map Prod.snd := by
        rw [List.enum_map_snd]; exact hpr
      rw [List.mem_map] at hmem
      obtain ⟨p, hp, hsnd⟩ := hmem
      refine ⟨parseRowJson meta p.1 p.2, List.mem_map_of_mem _ hp, ?_⟩
      rw [scoreRowJson_error_iff]
      rw [show (parseRowJson meta p.1 p.2).shillings = p.2.shillings from rfl,
        show (parseRowJson meta p.1 p.2).pence = p.2.pence from rfl, hsnd]
      exact hbad
  · intro meta text b rows h
    cases b with
    | failure =>
      rw [hfail meta text] at h
      injection h with h2
      refine iff_of_false ?_ ?_
      · rw [← h2]
        simp
      · intro hcon
        exact ExtractOutcomeJson.noConfusion hcon
    | success rsj =>
      have hlen : rows.length = rsj.length := by
        have h2 : scoreRows (rsj.enum.map (fun p => parseRowJson meta p.1 p.2))
            = Except.ok rows := h
        have hl := scoreRows_ok_length _ rows h2
        simpa [List.length_map, List.enum_length] using hl
      constructor
      · intro hnil
        rw [hnil] at hlen
        have : rsj = [] := List.length_eq_zero.mp hlen.symm
        rw [this]
      · intro hb
        cases hb
        exact List.length_eq_zero.mp hlen

/-- Witness for C1's amended theorem: the empty/non-empty
characterization applied to a concrete failure outcome, whose hypothesis
is discharged by the theorem's own fallback equation. -/
theorem extract_page_raise_and_fallback_witness :
    ([ledgerRowToJson (scoreRow (fallbackRow examplePageMeta))]
        = ([] : List LedgerRowJson))
      ↔ ExtractOutcomeJson.failure = ExtractOutcomeJson.success [] :=
  extract_page_raise_and_fallback.2.2.2.1 examplePageMeta ""
    ExtractOutcomeJson.failure
    [ledgerRowToJson (scoreRow (fallbackRow examplePageMeta))]
    (extract_page_raise_and_fallback.1 examplePageMeta "")

theorem rowConfidence_bounds (row : LedgerRow) (rw : ℚ) (tmp : Option Int) :
    0 ≤ compute_row_confidence row rw tmp ∧
    compute_row_confidence row rw tmp ≤ 1 := by
  rw [blendScore_closed_form]
  exact ⟨clamp01_nonneg _, clamp01_le_one _⟩

/-- C4: every row returned by `extract_page` (success and fallback paths
alike) carries exactly the scorer's outputs in its two final confidence
fields, and both lie in the unit interval. -/
theorem extract_rows_confidence_finalized :
    ∀ (meta : PageMetadata) (text : String) (b : ExtractOutcome)
      (r : LedgerRow), r ∈ extract_page meta text b →
      r.rule_based_confidence = compute_rule_based_confidence r none ∧
      r.row_confidence = compute_row_confidence r 0.4 none ∧
      0 ≤ r.rule_based_confidence ∧ r.rule_based_confidence ≤ 1 ∧
      0 ≤ r.row_confidence ∧ r.row_confidence ≤ 1 := by
  intro meta text b r hr
  have hmem : r ∈ (match extract_page_with_llm meta text b with
      | Except.ok rows => rows
      | Except.error _ => [fallbackRow meta]).map scoreRow := hr
  rw [List.mem_map] at hmem
  obtain ⟨row0, _, rfl⟩ := hmem
  have e1 : (scoreRow row0).rule_based_confidence
      = compute_rule_based_confidence row0 none := rfl
  have e2 : (scoreRow row0).row_confidence
      = compute_row_confidence row0 0.4 none := rfl
  have e3 : compute_rule_based_confidence (scoreRow row0) none
      = compute_rule_based_confidence row0 none := rfl
  have e4 : compute_row_confidence (scoreRow row0) 0.4 none
      = compute_row_confidence row0 0.4 none := rfl
  refine ⟨e1.trans e3.symm, e2.trans e4.symm, ?_, ?_, ?_, ?_⟩
  · rw [e1]; exact (ruleScore_bounds row0 none).1
  · rw [e1]; exact (ruleScore_bounds row0 none).2
  · rw [e2]; exact (rowConfidence_bounds row0 0.4 none).1
  · rw [e2]; exact (rowConfidence_bounds row0 0.4 none).2

/-- Witness for C4 at the concrete fallback row of a failed
extraction. -/
theorem extract_rows_confidence_finalized_witness :
    (scoreRow (fallbackRow examplePageMeta)).rule_based_confidence
      = compute_rule_based_confidence (scoreRow (fallbackRow examplePageMeta)) none ∧
    (scoreRow (fallbackRow examplePageMeta)).row_confidence
      = compute_row_confidence (scoreRow (fallbackRow examplePageMeta)) 0.4 none ∧
    0 ≤ (scoreRow (fallbackRow examplePageMeta)).rule_based_confidence ∧
    (scoreRow (fallbackRow examplePageMeta)).rule_based_confidence ≤ 1 ∧
    0 ≤ (scoreRow (fallbackRow examplePageMeta)).row_confidence ∧
    (scoreRow (fallbackRow examplePageMeta)).row_confidence ≤ 1 :=
  extract_rows_confidence_finalized examplePageMeta "" ExtractOutcome.failure
    (scoreRow (fallbackRow examplePageMeta)) (List.mem_singleton_self _)

/-! ## Classifier theorems -/

/-- C5: `classify_page` is total, and whenever the service path fails it
returns the pure keyword heuristic's metadata: `Full_Balance_Sheet` when
the lower-cased page text contains "total" or "balance", otherwise
`Sectional_List`, with the overview recording the fallback path. -/
theorem classify_fallback_heuristic :
    ∀ (doc_id : String) (page_id : Int) (page_text : String),
      classify_page doc_id page_id page_text ClassifyOutcome.failure =
      (if strHasSub (pythonLower page_text) "total"
          || strHasSub (pythonLower page_text) "balance"
       then { doc_id := doc_id, page_id := page_id,
              page_type := PageType.Full_Balance_Sheet,
              financial_structure_overview := fallbackBalanceOverview }
       else { doc_id := doc_id, page_id := page_id,
              page_type := PageType.Sectional_List,
              financial_structure_overview := fallbackListOverview }) := by
  intro doc_id page_id page_text
  rfl

/-- Invalid or absent transaction types always normalize into the
three-value enum. -/
theorem normalizeTxType_mem (raw : String) :
    normalizeTxType raw = "Debit" ∨ normalizeTxType raw = "Credit"
      ∨ normalizeTxType raw = "Unknown" := by
  unfold normalizeTxType
  split_ifs with h
  · exact h
  · right; right; rfl

/-- A classification response carrying an unrecognized page type. -/
def exampleBadPageTypeResponse : ClassifyResponse :=
  { doc_id := none, page_id := none, page_type := some "Balance_Sheet_V2",
    financial_structure_overview := none }

/-- An extraction response row carrying an unrecognized transaction
type. -/
def exampleBadTxTypeRow : ParsedRow :=
  { doc_id := none, page_id := none, row_id := none,
    description := some "x", transaction_type := some "Transfer",
    pounds := none, shillings := none, pence := none, pence_fraction := none,
    model_conf_description := none, model_conf_transaction_type := none,
    model_conf_pounds := none, model_conf_shillings := none,
    model_conf_pence := none, model_conf_pence_fraction := none }

/-- C8: a successfully parsed response with an unrecognized (or absent)
enum value is silently normalized to the safe default: `classify`
coerces any `page_type` outside the three valid values to `Unknown`;
`extract` coerces any `transaction_type` outside its three valid values
to `Unknown`; no returned row ever carries an unrecognized transaction
type. -/
theorem enum_values_normalized :
    (∀ (d : String) (p : Int) (t : String) (resp : ClassifyResponse)
       (raw : String), resp.page_type = some raw →
      ¬ (raw = "Full_Balance_Sheet" ∨ raw = "Sectional_List" ∨ raw = "Unknown") →
      (classify_page d p t (ClassifyOutcome.success resp)).page_type
        = PageType.Unknown)
    ∧ (∀ (d : String) (p : Int) (t : String) (resp : ClassifyResponse),
      resp.page_type = none →
      (classify_page d p t (ClassifyOutcome.success resp)).page_type
        = PageType.Unknown)
    ∧ (∀ (meta : PageMetadata) (i : ℕ) (pr : ParsedRow) (raw : String),
      pr.transaction_type = some raw →
      ¬ (raw = "Debit" ∨ raw = "Credit" ∨ raw = "Unknown") →
      (parseRow meta i pr).transaction_type = "Unknown")
    ∧ (∀ (meta : PageMetadata) (i : ℕ) (pr : ParsedRow),
      pr.transaction_type = none →
      (parseRow meta i pr).transaction_type = "Unknown")
    ∧ (∀ (meta : PageMetadata) (text : String) (rs : List ParsedRow)
       (r : LedgerRow), r ∈ extract_page meta text (ExtractOutcome.success rs) →
      r.transaction_type = "Debit" ∨ r.transaction_type = "Credit"
        ∨ r.transaction_type = "Unknown") := by
  refine ⟨?_, ?_, ?_, ?_, ?_⟩
  · intro d p t resp raw h hbad
    push_neg at hbad
    simp [classify_page, classify_page_with_llm, h, normalizePageType,
      hbad.1, hbad.2.1]
  · intro d p t resp h
    simp [classify_page, classify_page_with_llm, h, normalizePageType]
  · intro meta i pr raw h hbad
    push_neg at hbad
    simp [parseRow, normalizeTxType, h, hbad.1, hbad.2.1, hbad.2.2]
  · intro meta i pr h
    simp [parseRow, normalizeTxType, h]
  · intro meta text rs r hr
    have hmem : r ∈ (rs.enum.map (fun p => parseRow meta p.1 p.2)).map scoreRow := hr
    rw [List.mem_map] at hmem
    obtain ⟨row0, hrow0, rfl⟩ := hmem
    rw [List.mem_map] at hrow0
    obtain ⟨q, _, rfl⟩ := hrow0
    have e : (scoreRow (parseRow meta q.1 q.2)).transaction_type
        = normalizeTxType (q.2.transaction_type.getD "Unknown") := rfl
    rw [e]
    exact normalizeTxType_mem _

/-- Witness for C8: the unrecognized page type "Balance_Sheet_V2" and
transaction type "Transfer" both collapse to `Unknown`. -/
theorem enum_values_normalized_witness :
    (classify_page "a" 1 ""
        (ClassifyOutcome.success exampleBadPageTypeResponse)).page_type
      = PageType.Unknown ∧
    (parseRow examplePageMeta 0 exampleBadTxTypeRow).transaction_type
      = "Unknown" :=
  ⟨enum_values_normalized.1 "a" 1 "" exampleBadPageTypeResponse
      "Balance_Sheet_V2" rfl (by decide),
   enum_values_normalized.2.2.1 examplePageMeta 0 exampleBadTxTypeRow
      "Transfer" rfl (by decide)⟩

/-- A successful classification response that overrides both
identifiers. -/
def exampleOverrideResponse : ClassifyResponse :=
  { doc_id := some "b", page_id := some 7, page_type := none,
    financial_structure_overview := none }

/-- C10: on the success path, `classify` and `extract` take `doc_id` and
`page_id` from the response when present, falling back to the
caller-supplied identifiers only when the response omits them; hence a
successful response can return identifiers differing from the pipeline's
arguments. -/
theorem response_ids_override_arguments :
    (∀ (d : String) (p : Int) (t : String) (resp : ClassifyResponse),
      (classify_page d p t (ClassifyOutcome.success resp)).doc_id
        = resp.doc_id.getD d ∧
      (classify_page d p t (ClassifyOutcome.success resp)).page_id
        = resp.page_id.getD p)
    ∧ (∀ (meta : PageMetadata) (i : ℕ) (pr : ParsedRow),
      (parseRow meta i pr).doc_id = pr.doc_id.getD meta.doc_id ∧
      (parseRow meta i pr).page_id = pr.page_id.getD meta.page_id)
    ∧ (∀ (meta : PageMetadata) (text : String) (rs : List ParsedRow),
      extract_page meta text (ExtractOutcome.success rs)
        = rs.enum.map (fun q => scoreRow (parseRow meta q.1 q.2)))
    ∧ (classify_page "a" 1 ""
        (ClassifyOutcome.success exampleOverrideResponse)).doc_id = "b"
    ∧ (classify_page "a" 1 ""
        (ClassifyOutcome.success exampleOverrideResponse)).page_id = 7 := by
  refine ⟨fun d p t resp => ⟨rfl, rfl⟩, fun meta i pr => ⟨rfl, rfl⟩, ?_, rfl, rfl⟩
  intro meta text rs
  simp [extract_page, extract_page_with_llm, List.map_map]

/-! ## Pipeline theorems -/

/-- Association-list lookup is determined by the key-value multiset once
keys are unique: permuting the list never changes any lookup. -/
theorem lookup_eq_of_perm {l1 l2 : List (Int × String)}
    (h : List.Perm l1 l2) :
    (l1.map Prod.fst).Nodup → ∀ k, l1.lookup k = l2.lookup k := by
  induction h with
  | nil => intro _ k; rfl
  | cons x h ih =>
    intro nd k
    obtain ⟨a, b⟩ := x
    have ndt := (List.nodup_cons.mp nd).2
    rcases hbe : (k == a) with _ | _ <;>
      simp [List.lookup, hbe, ih ndt k]
  | swap x y t =>
    intro nd k
    obtain ⟨a1, b1⟩ := x
    obtain ⟨a2, b2⟩ := y
    simp only [List.map_cons] at nd
    have hne : a2 ≠ a1 := by
      have hm := (List.nodup_cons.mp nd).1
      intro heq
      exact hm (by simp [heq])
    by_cases h1 : k = a1 <;> by_cases h2 : k = a2
    · exact absurd (h2.symm.trans h1) hne
    · have e1 : (k == a1) = true := beq_iff_eq.mpr h1
      have e2 : (k == a2) = false := beq_eq_false_iff_ne.mpr h2
      simp [List.lookup, e1, e2]
    · have e1 : (k == a1) = false := beq_eq_false_iff_ne.mpr h1
      have e2 : (k == a2) = true := beq_iff_eq.mpr h2
      simp [List.lookup, e1, e2]
    · have e1 : (k == a1) = false := beq_eq_false_iff_ne.mpr h1
      have e2 : (k == a2) = false := beq_eq_false_iff_ne.mpr h2
      simp [List.lookup, e1, e2]
  | trans h1 h2 ih1 ih2 =>
    intro nd k
    have nd2 := ((h1.map Prod.fst).nodup_iff).mp nd
    exact (ih1 nd k).trans (ih2 nd2 k)

/-- Sorting the page ids is invariant under permutation of the input
map: the ascending order is unique. -/
theorem sortedKeys_perm_invariant {p1 p2 : List (Int × String)}
    (h : List.Perm p1 p2) : sortedKeys p1 = sortedKeys p2 := by
  apply List.eq_of_perm_of_sorted (r := fun a b : Int => a ≤ b)
  · exact ((List.perm_insertionSort _ _).trans (h.map Prod.fst)).trans
      (List.perm_insertionSort _ _).symm
  · exact List.sorted_insertionSort _ _
  · exact List.sorted_insertionSort _ _

/-- C6: `process_document` visits page ids in ascending numeric order
(the iteration sequence is sorted and is a permutation of the map's
keys), its output is independent of the input map's iteration order, and
on the spec's worked example `{2: "B", 1: "A"}` the metadata comes out
for page 1 then page 2. -/
theorem process_document_ascending_order :
    (∀ pages : List (Int × String),
      List.Sorted (fun a b : Int => a ≤ b) (sortedKeys pages) ∧
      (sortedKeys pages).Perm (pages.map Prod.fst))
    ∧ (∀ (doc_id : String) (p1 p2 : List (Int × String))
        (cb : Int → ClassifyOutcome) (eb : Int → ExtractOutcome),
      (p1.map Prod.fst).Nodup → List.Perm p1 p2 →
      process_document doc_id p1 cb eb = process_document doc_id p2 cb eb)
    ∧ ((process_document "doc" [(2, "B"), (1, "A")]
        (fun _ => ClassifyOutcome.failure)
        (fun _ => ExtractOutcome.failure)).1.map (fun m => m.page_id) = [1, 2])
    ∧ (process_document "doc" [(2, "B"), (1, "A")]
        (fun _ => ClassifyOutcome.failure) (fun _ => ExtractOutcome.failure)
      = process_document "doc" [(1, "A"), (2, "B")]
        (fun _ => ClassifyOutcome.failure) (fun _ => ExtractOutcome.failure)) := by
  have hinv : ∀ (doc_id : String) (p1 p2 : List (Int × String))
      (cb : Int → ClassifyOutcome) (eb : Int → ExtractOutcome),
      (p1.map Prod.fst).Nodup → List.Perm p1 p2 →
      process_document doc_id p1 cb eb = process_document doc_id p2 cb eb := by
    intro doc_id p1 p2 cb eb nd hperm
    have hlk := lookup_eq_of_perm hperm nd
    unfold process_document
    rw [sortedKeys_perm_invariant hperm]
    simp only [hlk]
  refine ⟨fun pages => ⟨List.sorted_insertionSort _ _,
      List.perm_insertionSort _ _⟩, hinv, ?_, ?_⟩
  · rfl
  · exact hinv "doc" _ _ _ _ (by decide) (List.Perm.swap _ _ _)

/-- Witness for C6's permutation-invariance component at a concrete
two-page map. -/
theorem process_document_ascending_order_witness :
    process_document "d2" [(5, "X"), (3, "Y")]
      (fun _ => ClassifyOutcome.failure) (fun _ => ExtractOutcome.failure)
    = process_document "d2" [(3, "Y"), (5, "X")]
      (fun _ => ClassifyOutcome.failure) (fun _ => ExtractOutcome.failure) :=
  process_document_ascending_order.2.1 "d2" _ _ _ _ (by decide)
    (List.Perm.swap _ _ _)

/-! ## Transcription-cache theorems -/

theorem lookup_append_some {c : List (Int × String)} (d : List (Int × String))
    {k : Int} {t : String} (h : c.lookup k = some t) :
    (c ++ d).lookup k = some t := by
  induction c with
  | nil => simp [List.lookup] at h
  | cons x xs ih =>
    obtain ⟨a, b⟩ := x
    rcases hbe : (k == a) with _ | _
    · simp only [List.cons_append, List.lookup, hbe] at h ⊢
      exact ih h
    · simp only [List.cons_append, List.lookup, hbe] at h ⊢
      exact h

theorem lookup_append_single_ne (c : List (Int × String)) {k a : Int}
    (t : String) (h : k ≠ a) :
    (c ++ [(a, t)]).lookup k = c.lookup k := by
  induction c with
  | nil => simp [List.lookup, beq_eq_false_iff_ne.mpr h]
  | cons x xs ih =>
    obtain ⟨x1, x2⟩ := x
    rcases hbe : (k == x1) with _ | _ <;>
      simp only [List.cons_append, List.lookup, hbe] <;> exact ih

theorem lookup_append_single_self (c : List (Int × String)) {k : Int}
    (t : String) (h : c.lookup k = none) :
    (c ++ [(k, t)]).lookup k = some t := by
  induction c with
  | nil => simp [List.lookup]
  | cons x xs ih =>
    obtain ⟨x1, x2⟩ := x
    rcases hbe : (k == x1) with _ | _
    · simp only [List.lookup, hbe] at h
      simp only [List.cons_append, List.lookup, hbe]
      exact ih h
    · simp only [List.lookup, hbe] at h
      exact absurd h (by simp)

/-- The loop only ever appends to the cache: any entry present before a
run is still found, with the same text, afterwards. -/
theorem ocrLoop_cache_mono (ocr : String → String) :
    ∀ (imgs cache : List (Int × String)) (k : Int) (t : String),
      cache.lookup k = some t →
      (((ocrLoop ocr imgs cache).2.1).lookup k) = some t := by
  intro imgs
  induction imgs with
  | nil => intro cache k t h; simpa [ocrLoop] using h
  | cons hd rest ih =>
    intro cache k t h
    obtain ⟨pid, img⟩ := hd
    rcases hca : cache.lookup pid with _ | t0
    · simp only [ocrLoop, hca]
      exact ih _ k t (lookup_append_some _ h)
    · simp only [ocrLoop, hca]
      exact ih cache k t h

/-- A page whose cache entry exists before the run is emitted with
exactly the stored text. -/
theorem ocrLoop_pages_stored (ocr : String → String) :
    ∀ (imgs cache : List (Int × String)) (pid : Int) (img t : String),
      (pid, img) ∈ imgs → cache.lookup pid = some t →
      ((ocrLoop ocr imgs cache).1).lookup pid = some t := by
  intro imgs
  induction imgs with
  | nil => intro cache pid img t hmem; exact absurd hmem (by simp)
  | cons hd rest ih =>
    intro cache pid img t hmem hc
    obtain ⟨a, ip⟩ := hd
    by_cases hpa : pid = a
    · subst hpa
      rcases hca : cache.lookup pid with _ | t0
      · rw [hca] at hc; exact absurd hc (by simp)
      · rw [hca] at hc
        simp only [ocrLoop, hca, List.lookup, beq_self_eq_true]
        exact hc
    · have hbe : (pid == a) = false := beq_eq_false_iff_ne.mpr hpa
      have hmem2 : (pid, img) ∈ rest := by
        rcases List.mem_cons.mp hmem with heq | htail
        · exact absurd (congrArg Prod.fst heq) hpa
        · exact htail
      rcases hca : cache.lookup a with _ | t0
      · simp only [ocrLoop, hca, List.lookup, hbe]
        exact ih _ pid img t hmem2 (lookup_append_some _ hc)
      · simp only [ocrLoop, hca, List.lookup, hbe]
        exact ih cache pid img t hmem2 hc

/-- If every page's key is already cached, the loop calls the
transcription service zero times. -/
theorem ocrLoop_zero_calls (ocr : String → String) :
    ∀ (imgs cache : List (Int × String)),
      (∀ pi ∈ imgs, ((cache.lookup pi.1)).isSome = true) →
      (ocrLoop ocr imgs cache).2.2 = 0 := by
  intro imgs
  induction imgs with
  | nil => intro cache _; rfl
  | cons hd rest ih =>
    intro cache h
    obtain ⟨a, ip⟩ := hd
    have ha := h (a, ip) (List.mem_cons_self _ _)
    rcases Option.isSome_iff_exists.mp ha with ⟨t0, ht0⟩
    simp only [ocrLoop, ht0]
    exact ih cache (fun pi hpi => h pi (List.mem_cons_of_mem _ hpi))

/-- After a run, every page's key has a cache entry: results are
persisted before the loop moves on. -/
theorem ocrLoop_cache_complete (ocr : String → String) :
    ∀ (imgs cache : List (Int × String)) (pi : Int × String),
      pi ∈ imgs →
      ((((ocrLoop ocr imgs cache).2.1).lookup pi.1)).isSome = true := by
  intro imgs
  induction imgs with
  | nil => intro cache pi hmem; exact absurd hmem (by simp)
  | cons hd rest ih =>
    intro cache pi hmem
    obtain ⟨a, ip⟩ := hd
    rcases hca : cache.lookup a with _ | t0
    · simp only [ocrLoop, hca]
      rcases List.mem_cons.mp hmem with heq | htail
      · have hself : (cache ++ [(a, ocr ip)]).lookup a = some (ocr ip) :=
          lookup_append_single_self cache _ hca
        have := ocrLoop_cache_mono ocr rest _ a (ocr ip) hself
        rw [heq]
        simp [this]
      · exact ih _ pi htail
    · simp only [ocrLoop, hca]
      rcases List.mem_cons.mp hmem with heq | htail
      · have := ocrLoop_cache_mono ocr rest cache a t0 hca
        rw [heq]
        simp [this]
      · exact ih cache pi htail

/-- With unique page keys, the number of transcription calls is exactly
the number of pages missing from the initial cache. -/
theorem ocrLoop_calls_count (ocr : String → String) :
    ∀ (imgs cache : List (Int × String)),
      (imgs.map Prod.fst).Nodup →
      (ocrLoop ocr imgs cache).2.2
        = imgs.countP (fun pi => ((cache.lookup pi.1)).isNone) := by
  intro imgs
  induction imgs with
  | nil => intro cache _; rfl
  | cons hd rest ih =>
    intro cache nd
    obtain ⟨a, ip⟩ := hd
    simp only [List.map_cons] at nd
    have hnot := (List.nodup_cons.mp nd).1
    have ndt := (List.nodup_cons.mp nd).2
    have hne : ∀ pi ∈ rest, pi.1 ≠ a := by
      intro pi hpi heq
      exact hnot (heq ▸ List.mem_map_of_mem Prod.fst hpi)
    rcases hca : cache.lookup a with _ | t0
    · simp only [ocrLoop, hca, List.countP_cons]
      have hcong : rest.countP
            (fun pi => (((cache ++ [(a, ocr ip)]).lookup pi.1)).isNone)
          = rest.countP (fun pi => ((cache.lookup pi.1)).isNone) :=
        List.countP_congr (fun pi hpi => by
          rw [lookup_append_single_ne cache _ (hne pi hpi)])
      rw [ih _ ndt, hcong]
      simp [hca]
    · simp only [ocrLoop, hca, List.countP_cons]
      rw [ih cache ndt]
      simp [hca]

/-- C7: for the cached transcription step, a cache hit returns the
stored text for that page, the service is called exactly once per page
absent from the cache (so hits contribute zero calls), results are
persisted, and a second run over the resulting cache makes zero
service calls. -/
theorem transcription_cache_write_once :
    ∀ (page_images cache : List (Int × String)) (ocr : String → String),
      (page_images.map Prod.fst).Nodup →
      (∀ (pid : Int) (img t : String), (pid, img) ∈ page_images →
        cache.lookup pid = some t →
        ((ocr_pdf_to_pages_cached page_images cache ocr).1).lookup pid = some t) ∧
      ((ocr_pdf_to_pages_cached page_images cache ocr).2.2
        = page_images.countP (fun pi => ((cache.lookup pi.1)).isNone)) ∧
      ((ocr_pdf_to_pages_cached page_images
          ((ocr_pdf_to_pages_cached page_images cache ocr).2.1) ocr).2.2 = 0) := by
  intro page_images cache ocr nd
  have hperm : (sortImages page_images).Perm page_images :=
    List.perm_insertionSort (fun a b : Int × String => a.1 ≤ b.1) page_images
  refine ⟨?_, ?_, ?_⟩
  · intro pid img t hmem hc
    exact ocrLoop_pages_stored ocr _ cache pid img t
      (hperm.mem_iff.mpr hmem) hc
  · rw [ocr_pdf_to_pages_cached,
      ocrLoop_calls_count ocr (sortImages page_images) cache
        ((hperm.map Prod.fst).nodup_iff.mpr nd)]
    exact hperm.countP_eq _
  · apply ocrLoop_zero_calls
    intro pi hpi
    exact ocrLoop_cache_complete ocr _ cache pi hpi

/-- Witness for C7: one cached page and one uncached page; the cached
text is returned, exactly one call is made, and a second run makes
zero calls. -/
theorem transcription_cache_write_once_witness :
    ((ocr_pdf_to_pages_cached [(1, "img1"), (2, "img2")] [(1, "text1")]
        (fun s => s)).1).lookup 1 = some "text1" ∧
    (ocr_pdf_to_pages_cached [(1, "img1"), (2, "img2")] [(1, "text1")]
        (fun s => s)).2.2
      = [(1, "img1"), (2, "img2")].countP
          (fun pi => ((([(1, "text1")] : List (Int × String)).lookup pi.1)).isNone) ∧
    (ocr_pdf_to_pages_cached [(1, "img1"), (2, "img2")]
        ((ocr_pdf_to_pages_cached [(1, "img1"), (2, "img2")] [(1, "text1")]
          (fun s => s)).2.1) (fun s => s)).2.2 = 0 :=
  ⟨(transcription_cache_write_once _ _ _ (by decide)).1 1 "img1" "text1"
      (by decide) rfl,
   (transcription_cache_write_once _ _ _ (by decide)).2.1,
   (transcription_cache_write_once _ _ _ (by decide)).2.2⟩

end LedgerExtraction
